import Mathlib

/-!
Shallow embedding of src/main.py (Liquibase-Generator): a line-oriented
scanner over a Java entity file, a Java-to-SQL type mapping, four change
generators, and the main driver that wraps a generated fragment pair in a
fixed XML envelope and derives the output path from the input path.
-/

set_option autoImplicit false

namespace LiquibaseGen

/-! ### Character classes used by the regular expressions in main.py -/

/-- Models the Python regex class backslash-s on the ASCII range:
space, tab, newline, carriage return, vertical tab, form feed. -/
def isPyWhitespace (c : Char) : Bool :=
  c = ' ' || c = '\t' || c = '\n' || c = '\r' || c = Char.ofNat 11 || c = Char.ofNat 12

/-- Models the Python regex class backslash-w restricted to ASCII:
letters, digits and underscore. -/
def isWordChar (c : Char) : Bool :=
  c.isAlphanum || c = '_'

/-! ### Elementary pattern pieces -/

/-- Matches a literal character sequence at the head of the input and
returns the remaining characters, or fails. -/
def matchLit : List Char → List Char → Option (List Char)
  | [], s => some s
  | _ :: _, [] => none
  | p :: pt, c :: s => if c = p then matchLit pt s else none

/-- Models a greedy one-or-more character-class element (such as
backslash-s+ or backslash-w+) whose successor in the pattern can never
match a character of the same class, so the match is exactly the maximal
run.  Returns the matched run and the remaining characters. -/
def matchPlus (p : Char → Bool) (s : List Char) : Option (List Char × List Char) :=
  match s.takeWhile p with
  | [] => none
  | r => some (r, s.dropWhile p)

/-- Models the non-greedy capture in the annotation patterns: the tail
(.*?)"\) of the table and column regexes.  The capture is the shortest
span of non-newline characters followed by a double quote and a closing
parenthesis. -/
def nonGreedyCapture : List Char → Option (List Char)
  | '"' :: ')' :: _ => some []
  | c :: rest => if c = '\n' then none else (nonGreedyCapture rest).map fun l => c :: l
  | [] => none

/-! ### The four regular expressions of main.py, each as a matcher at one
start position plus a leftmost search over all start positions -/

/-- Models matching of a pattern of the shape
@Tag\(name\s*=\s*"(.*?)"\) at one start position, where `tag` is the
literal part up to and including the word name.  Returns the captured
group, the quoted name. -/
def annotationCaptureAt (tag : List Char) (s : List Char) : Option String :=
  (matchLit tag s).bind fun r1 =>
  let r2 := r1.dropWhile isPyWhitespace
  (matchLit ['='] r2).bind fun r3 =>
  let r4 := r3.dropWhile isPyWhitespace
  (matchLit ['"'] r4).bind fun r5 =>
  (nonGreedyCapture r5).map String.mk

/-- Models the alternation (private|protected|public): the three literals
are pairwise prefix-incompatible, so at any position at most one of them
matches. -/
def keywordAlt (s : List Char) : Option (List Char) :=
  match matchLit "private".data s with
  | some r => some r
  | none =>
    match matchLit "protected".data s with
    | some r => some r
    | none => matchLit "public".data s

/-- Models matching of (private|protected|public)\s+(\w+)\s+\w+; at one
start position.  Returns the second capture group, the field type. -/
def fieldMatchAt (s : List Char) : Option String :=
  (keywordAlt s).bind fun r1 =>
  (matchPlus isPyWhitespace r1).bind fun pr2 =>
  (matchPlus isWordChar pr2.2).bind fun pr3 =>
  (matchPlus isPyWhitespace pr3.2).bind fun pr4 =>
  (matchPlus isWordChar pr4.2).bind fun pr5 =>
  (matchLit [';'] pr5.2).map fun _ => String.mk pr3.1

/-- Models matching of public\s+(\w+)\s+\w+\(\) at one start position.
Returns the capture group, the getter return type. -/
def methodMatchAt (s : List Char) : Option String :=
  (matchLit "public".data s).bind fun r1 =>
  (matchPlus isPyWhitespace r1).bind fun pr2 =>
  (matchPlus isWordChar pr2.2).bind fun pr3 =>
  (matchPlus isPyWhitespace pr3.2).bind fun pr4 =>
  (matchPlus isWordChar pr4.2).bind fun pr5 =>
  (matchLit ['(', ')'] pr5.2).map fun _ => String.mk pr3.1

/-- Models re.search: try every start position from the left and return
the first successful match. -/
def searchCapture (matchAt : List Char → Option String) : List Char → Option String
  | [] => matchAt []
  | c :: rest =>
    match matchAt (c :: rest) with
    | some r => some r
    | none => searchCapture matchAt rest

/-- Models re.search of @Table\(name\s*=\s*"(.*?)"\) on one line. -/
def tableSearch (line : String) : Option String :=
  searchCapture (annotationCaptureAt "@Table(name".data) line.data

/-- Models re.search of @Column\(name\s*=\s*"(.*?)"\) on one line. -/
def columnSearch (line : String) : Option String :=
  searchCapture (annotationCaptureAt "@Column(name".data) line.data

/-- Models re.search of (private|protected|public)\s+(\w+)\s+\w+; on one
line, returning group 2. -/
def fieldSearch (line : String) : Option String :=
  searchCapture fieldMatchAt line.data

/-- Models re.search of public\s+(\w+)\s+\w+\(\) on one line, returning
group 1. -/
def methodSearch (line : String) : Option String :=
  searchCapture methodMatchAt line.data

/-! ### The scanner parse_java_entity -/

/-- Models the loop body of parse_java_entity from main.py.  The state is
the pair (table_name, columns).  The field check is guarded by
i + 1 < len(lines), while the getter-method check reads lines[i + 1]
without a guard, so when a column annotation sits on the last line the
access raises an IndexError, modelled as Except.error with the Python
message of that exception. -/
def parseJavaEntityAux : List String → Option String × List (String × String) →
    Except String (Option String × List (String × String))
  | [], acc => Except.ok acc
  | l :: rest, (tn, cols) =>
    let tn2 : Option String :=
      match tableSearch l with
      | some n => some n
      | none => tn
    match columnSearch l with
    | none => parseJavaEntityAux rest (tn2, cols)
    | some cn =>
      match (match rest.head? with | some nxt => fieldSearch nxt | none => none) with
      | some t =>
        parseJavaEntityAux rest (tn2, if t.isEmpty then cols else cols ++ [(cn, t)])
      | none =>
        match rest.head? with
        | none => Except.error "list index out of range"
        | some nxt =>
          match methodSearch nxt with
          | some t =>
            parseJavaEntityAux rest (tn2, if t.isEmpty then cols else cols ++ [(cn, t)])
          | none => parseJavaEntityAux rest (tn2, cols)

/-- Models parse_java_entity from main.py applied to the list of lines of
an already opened file.  Returns the table name (None when no table
annotation matched) and the column list in source order, or the message
of the exception the Python function raises. -/
def parse_java_entity (lines : List String) :
    Except String (Option String × List (String × String)) :=
  parseJavaEntityAux lines (none, [])

/-! ### Type mapping and fragment generators -/

/-- Models map_java_type_to_db_type from main.py: the dict lookup with
default VARCHAR(255). -/
def map_java_type_to_db_type (javaType : String) : String :=
  if javaType = "String" then "VARCHAR(255)"
  else if javaType = "int" then "INTEGER"
  else if javaType = "Integer" then "INTEGER"
  else if javaType = "long" then "BIGINT"
  else if javaType = "Long" then "BIGINT"
  else if javaType = "boolean" then "BOOLEAN"
  else if javaType = "Boolean" then "BOOLEAN"
  else if javaType = "Date" then "TIMESTAMP"
  else if javaType = "BigDecimal" then "DECIMAL(19,2)"
  else "VARCHAR(255)"

/-- Models the Python f-string conversion of the interpolated table name,
which in main.py is either None or a str: str(None) is the text None. -/
def pyStrOpt : Option String → String
  | none => "None"
  | some s => s

/-- Models generate_add_column_query from main.py. -/
def generate_add_column_query (tableName : Option String) (columnName columnType : String) :
    String × String :=
  let dbType := map_java_type_to_db_type columnType
  ("<addColumn tableName=\"" ++ pyStrOpt tableName ++ "\">\n    <column name=\"" ++
     columnName ++ "\" type=\"" ++ dbType ++ "\"/>\n</addColumn>",
   "<dropColumn tableName=\"" ++ pyStrOpt tableName ++ "\" columnName=\"" ++ columnName ++ "\"/>")

/-- Models generate_delete_column_query from main.py. -/
def generate_delete_column_query (tableName : Option String) (columnName : String) :
    String × String :=
  ("<dropColumn tableName=\"" ++ pyStrOpt tableName ++ "\" columnName=\"" ++ columnName ++ "\"/>",
   "<addColumn tableName=\"" ++ pyStrOpt tableName ++ "\">\n    <column name=\"" ++
     columnName ++ "\" type=\"VARCHAR(255)\"/>\n</addColumn>")

/-- Models generate_modify_column_query from main.py. -/
def generate_modify_column_query (tableName : Option String) (columnName columnType : String) :
    String × String :=
  let dbType := map_java_type_to_db_type columnType
  ("<modifyDataType tableName=\"" ++ pyStrOpt tableName ++ "\" columnName=\"" ++ columnName ++
     "\" newDataType=\"" ++ dbType ++ "\"/>",
   "<modifyDataType tableName=\"" ++ pyStrOpt tableName ++ "\" columnName=\"" ++ columnName ++
     "\" newDataType=\"VARCHAR(255)\"/>")

/-- Models the column line appended for each (name, java type) pair in the
loop of generate_create_table_query. -/
def colLine (p : String × String) : String :=
  "    <column name=\"" ++ p.1 ++ "\" type=\"" ++ map_java_type_to_db_type p.2 ++ "\"/>"

/-- Models generate_create_table_query from main.py, with the loop that
appends one line per column rendered as a left fold. -/
def generate_create_table_query (tableName : Option String) (columns : List (String × String)) :
    String × String :=
  let xmlLines := ["<createTable tableName=\"" ++ pyStrOpt tableName ++ "\">"]
  let rollbackLines := ["<dropTable tableName=\"" ++ pyStrOpt tableName ++ "\"/>"]
  let xmlLines2 := columns.foldl (fun acc p => acc ++ [colLine p]) xmlLines
  let xmlLines3 := xmlLines2 ++ ["</createTable>"]
  (String.intercalate "\n" xmlLines3, String.intercalate "\n" rollbackLines)

/-! ### The main driver -/

/-- Models Python str.replace for a nonempty pattern: every
non-overlapping occurrence is replaced, scanning left to right.  The
fuel argument only bounds the recursion; pyReplace passes the input
length, which always suffices because every step consumes at least one
character. -/
def pyReplaceFuel (pat rep : List Char) : Nat → List Char → List Char
  | _, [] => []
  | 0, l => l
  | fuel + 1, c :: rest =>
    if List.isPrefixOf pat (c :: rest) = true ∧ pat ≠ [] then
      rep ++ pyReplaceFuel pat rep fuel ((c :: rest).drop pat.length)
    else
      c :: pyReplaceFuel pat rep fuel rest

/-- Models Python str.replace (for the nonempty pattern used in main.py). -/
def pyReplace (s pat rep : String) : String :=
  String.mk (pyReplaceFuel pat.data rep.data s.data.length s.data)

/-- Models line 116 of main.py: args.file.replace applied to the fixed
pattern and replacement. -/
def outputPath (file : String) : String :=
  pyReplace file ".java" "_liquibase_query.xml"

/-- Models the sequence of file.write calls of main.py: the fixed XML
envelope around the forward fragment and the rollback fragment. -/
def writeDocument (query rollback : String) : String :=
  "<?xml version=\"1.0\" encoding=\"UTF-8\"?>\n" ++
  "<databaseChangeLog xmlns=\"http://www.liquibase.org/xml/ns/dbchangelog\"\n" ++
  "                  xmlns:xsi=\"http://www.w3.org/2001/XMLSchema-instance\"\n" ++
  "                  xsi:schemaLocation=\"http://www.liquibase.org/xml/ns/dbchangelog\n" ++
  "                  http://www.liquibase.org/xml/ns/dbchangelog/dbchangelog-3.8.xsd\">\n" ++
  "\n    <changeSet id=\"1\" author=\"generated\">\n" ++
  "        " ++ query ++ "\n" ++
  "        <rollback>\n            " ++ rollback ++ "\n        </rollback>\n" ++
  "    </changeSet>\n" ++
  "</databaseChangeLog>\n"

/-- Models the argparse result of main.py.  addColumn and modifyColumn
take two values (nargs=2), deleteColumn takes one. -/
structure Args where
  file : String
  addColumn : Option (String × String)
  deleteColumn : Option String
  modifyColumn : Option (String × String)

/-- The four generation modes of main.py. -/
inductive Mode where
  | addCol : String → String → Mode
  | delCol : String → Mode
  | modCol : String → String → Mode
  | createTable : Mode
deriving DecidableEq

/-- Models the if/elif/elif/else chain of main.py including Python
truthiness: args.add_column and args.modify_column are two-element lists,
truthy whenever supplied, while args.delete_column is a bare string,
falsy when it is the empty string. -/
def chooseMode (args : Args) : Mode :=
  match args.addColumn with
  | some (cn, ct) => Mode.addCol cn ct
  | none =>
    match args.deleteColumn with
    | some cn =>
      if cn = "" then
        match args.modifyColumn with
        | some (cn2, ct2) => Mode.modCol cn2 ct2
        | none => Mode.createTable
      else Mode.delCol cn
    | none =>
      match args.modifyColumn with
      | some (cn2, ct2) => Mode.modCol cn2 ct2
      | none => Mode.createTable

/-- Observable outcome of one run of main.py after the file-existence
check: either a document written to a path, or an error line printed
without writing anything. -/
inductive MainOutcome where
  | written : String → String → MainOutcome
  | errorMsg : String → MainOutcome
deriving DecidableEq

/-- Models Python truthiness of the scanned table name, used by the
create-table precondition check: None and the empty string are falsy. -/
def truthyOptStr : Option String → Bool
  | none => false
  | some s => !s.isEmpty

/-- Models main from main.py after argparse and the os.path.exists check
succeeded, on the lines read from the input file.  An exception escaping
parse_java_entity is caught by the generic handler and printed as an
error line with the message of the exception. -/
def runMain (args : Args) (lines : List String) : MainOutcome :=
  match parse_java_entity lines with
  | Except.error e => MainOutcome.errorMsg ("Error: " ++ e)
  | Except.ok (tableName, columns) =>
    match chooseMode args with
    | Mode.addCol cn ct =>
      let qr := generate_add_column_query tableName cn ct
      MainOutcome.written (outputPath args.file) (writeDocument qr.1 qr.2)
    | Mode.delCol cn =>
      let qr := generate_delete_column_query tableName cn
      MainOutcome.written (outputPath args.file) (writeDocument qr.1 qr.2)
    | Mode.modCol cn ct =>
      let qr := generate_modify_column_query tableName cn ct
      MainOutcome.written (outputPath args.file) (writeDocument qr.1 qr.2)
    | Mode.createTable =>
      if truthyOptStr tableName = false ∨ columns = [] then
        MainOutcome.errorMsg "Error: Could not parse table name or columns."
      else
        let qr := generate_create_table_query tableName columns
        MainOutcome.written (outputPath args.file) (writeDocument qr.1 qr.2)

/-! ### Characterizations used to state the scanner claims -/

/-- Characterization following the spec wording that the last table match
wins: the table name after scanning a list of lines, threading an
earlier value as the fallback. -/
def lastCaptureFrom : List String → Option String → Option String
  | [], tn0 => tn0
  | l :: rest, tn0 =>
    lastCaptureFrom rest
      (match tableSearch l with
       | some n => some n
       | none => tn0)

/-- Characterization following the spec wording that the column list
preserves source file order: the recorded column of each line in cons
order, with the same one-line lookahead as the scanner.  The value on
the path where the scanner raises (a column annotation on the last line)
is irrelevant because the claims about it are conditioned on a
successful scan. -/
def columnsSpec : List String → List (String × String)
  | [] => []
  | l :: rest =>
    match columnSearch l with
    | none => columnsSpec rest
    | some cn =>
      match (match rest.head? with | some nxt => fieldSearch nxt | none => none) with
      | some t => if t.isEmpty then columnsSpec rest else (cn, t) :: columnsSpec rest
      | none =>
        match rest.head? with
        | none => []
        | some nxt =>
          match methodSearch nxt with
          | some t => if t.isEmpty then columnsSpec rest else (cn, t) :: columnsSpec rest
          | none => columnsSpec rest

/-! ### Helper lemmas -/

lemma isPrefixOf_self (l : List Char) : List.isPrefixOf l l = true := by
  induction l with
  | nil => rfl
  | cons c t ih => simp [List.isPrefixOf, ih]

lemma string_append_cancel_left {a b c : String} (h : a ++ b = a ++ c) : b = c := by
  apply String.ext
  have hd := congrArg String.data h
  simp only [String.data_append] at hd
  exact List.append_cancel_left hd

/-- Every value of the type mapping is one of its six range entries. -/
lemma map_java_type_cases (t : String) :
    map_java_type_to_db_type t = "VARCHAR(255)" ∨
    map_java_type_to_db_type t = "INTEGER" ∨
    map_java_type_to_db_type t = "BIGINT" ∨
    map_java_type_to_db_type t = "BOOLEAN" ∨
    map_java_type_to_db_type t = "TIMESTAMP" ∨
    map_java_type_to_db_type t = "DECIMAL(19,2)" := by
  unfold map_java_type_to_db_type
  split_ifs <;> decide

/-- Replacing in l ++ pat when pat occurs nowhere before the final
position rewrites exactly the trailing occurrence. -/
lemma pyReplaceFuel_append (pat rep : List Char) (hp : pat ≠ []) :
    ∀ (l : List Char) (fuel : Nat), (l ++ pat).length ≤ fuel →
      (∀ i, i < l.length → ¬ List.isPrefixOf pat ((l ++ pat).drop i) = true) →
      pyReplaceFuel pat rep fuel (l ++ pat) = l ++ rep := by
  intro l
  induction l with
  | nil =>
    intro fuel hf _
    cases pat with
    | nil => exact absurd rfl hp
    | cons p pt =>
      cases fuel with
      | zero => simp at hf
      | succ n =>
        simp only [List.nil_append] at hf ⊢
        rw [pyReplaceFuel, if_pos ⟨isPrefixOf_self _, hp⟩, List.drop_length, pyReplaceFuel]
        simp
  | cons c l2 ih =>
    intro fuel hf hocc
    cases fuel with
    | zero => simp at hf
    | succ n =>
      have h0 : ¬ List.isPrefixOf pat (c :: (l2 ++ pat)) = true := by
        have h1 := hocc 0 (by simp)
        simpa using h1
      simp only [List.cons_append] at hf ⊢
      rw [pyReplaceFuel, if_neg (fun hand => h0 hand.1)]
      have hrec := ih n (by simpa using Nat.lt_succ_iff.mp (Nat.lt_of_lt_of_le (Nat.lt_succ_self _) hf))
        (fun i hi => by
          have h2 := hocc (i + 1) (by simpa using Nat.succ_lt_succ hi)
          simpa [List.drop_succ_cons] using h2)
      rw [hrec]

lemma cons_getLast_some {α : Type} (b : α) (t : List α) : ∃ x, (b :: t).getLast? = some x := by
  induction t generalizing b with
  | nil => exact ⟨b, rfl⟩
  | cons c t2 ih => rw [List.getLast?_cons_cons]; exact ih c

/-- The fold threading the table name equals the last capture of the
line list, with the initial value as fallback. -/
lemma lastCaptureFrom_getLast (lines : List String) :
    ∀ tn0 : Option String,
      lastCaptureFrom lines tn0 =
        match (lines.filterMap tableSearch).getLast? with
        | some n => some n
        | none => tn0 := by
  induction lines with
  | nil => intro tn0; simp [lastCaptureFrom]
  | cons l rest ih =>
    intro tn0
    rw [lastCaptureFrom, ih, List.filterMap_cons]
    cases hl : tableSearch l with
    | none => rfl
    | some n =>
      cases hfm : rest.filterMap tableSearch with
      | nil => simp
      | cons b t =>
        rw [List.getLast?_cons_cons]
        obtain ⟨x, hx⟩ := cons_getLast_some b t
        rw [hx]

/-- The accumulator-threading scanner loop, on the success path, returns
the threaded last table capture and the accumulated columns in source
order. -/
lemma parseAux_characterization (lines : List String) :
    ∀ (tn0 : Option String) (cols0 : List (String × String)) (tn : Option String)
      (cols : List (String × String)),
      parseJavaEntityAux lines (tn0, cols0) = Except.ok (tn, cols) →
      tn = lastCaptureFrom lines tn0 ∧ cols = cols0 ++ columnsSpec lines := by
  induction lines with
  | nil =>
    intro tn0 cols0 tn cols h
    simp only [parseJavaEntityAux, Except.ok.injEq, Prod.mk.injEq] at h
    obtain ⟨h1, h2⟩ := h
    subst h1
    subst h2
    simp [lastCaptureFrom, columnsSpec]
  | cons l rest ih =>
    intro tn0 cols0 tn cols h
    have hlc : lastCaptureFrom (l :: rest) tn0 =
        lastCaptureFrom rest
          (match tableSearch l with | some n => some n | none => tn0) := by
      rw [lastCaptureFrom]
    cases hc : columnSearch l with
    | none =>
      have hstep : parseJavaEntityAux (l :: rest) (tn0, cols0) =
          parseJavaEntityAux rest
            ((match tableSearch l with | some n => some n | none => tn0), cols0) := by
        simp [parseJavaEntityAux, hc]
      have hcs : columnsSpec (l :: rest) = columnsSpec rest := by
        simp [columnsSpec, hc]
      rw [hstep] at h
      obtain ⟨ha, hb⟩ := ih _ _ _ _ h
      exact ⟨by rw [hlc]; exact ha, by rw [hcs]; exact hb⟩
    | some cn =>
      cases hh : rest.head? with
      | none =>
        have hstep : parseJavaEntityAux (l :: rest) (tn0, cols0) =
            Except.error "list index out of range" := by
          simp [parseJavaEntityAux, hc, hh]
        rw [hstep] at h
        exact absurd h (by simp)
      | some nxt =>
        cases hf : fieldSearch nxt with
        | some t =>
          cases ht : t.isEmpty with
          | true =>
            have hstep : parseJavaEntityAux (l :: rest) (tn0, cols0) =
                parseJavaEntityAux rest
                  ((match tableSearch l with | some n => some n | none => tn0), cols0) := by
              simp [parseJavaEntityAux, hc, hh, hf, ht]
            have hcs : columnsSpec (l :: rest) = columnsSpec rest := by
              simp [columnsSpec, hc, hh, hf, ht]
            rw [hstep] at h
            obtain ⟨ha, hb⟩ := ih _ _ _ _ h
            exact ⟨by rw [hlc]; exact ha, by rw [hcs]; exact hb⟩
          | false =>
            have hstep : parseJavaEntityAux (l :: rest) (tn0, cols0) =
                parseJavaEntityAux rest
                  ((match tableSearch l with | some n => some n | none => tn0),
                    cols0 ++ [(cn, t)]) := by
              simp [parseJavaEntityAux, hc, hh, hf, ht]
            have hcs : columnsSpec (l :: rest) = (cn, t) :: columnsSpec rest := by
              simp [columnsSpec, hc, hh, hf, ht]
            rw [hstep] at h
            obtain ⟨ha, hb⟩ := ih _ _ _ _ h
            refine ⟨by rw [hlc]; exact ha, ?_⟩
            rw [hcs]
            simpa [List.append_assoc] using hb
        | none =>
          cases hm : methodSearch nxt with
          | some t =>
            cases ht : t.isEmpty with
            | true =>
              have hstep : parseJavaEntityAux (l :: rest) (tn0, cols0) =
                  parseJavaEntityAux rest
                    ((match tableSearch l with | some n => some n | none => tn0), cols0) := by
                simp [parseJavaEntityAux, hc, hh, hf, hm, ht]
              have hcs : columnsSpec (l :: rest) = columnsSpec rest := by
                simp [columnsSpec, hc, hh, hf, hm, ht]
              rw [hstep] at h
              obtain ⟨ha, hb⟩ := ih _ _ _ _ h
              exact ⟨by rw [hlc]; exact ha, by rw [hcs]; exact hb⟩
            | false =>
              have hstep : parseJavaEntityAux (l :: rest) (tn0, cols0) =
                  parseJavaEntityAux rest
                    ((match tableSearch l with | some n => some n | none => tn0),
                      cols0 ++ [(cn, t)]) := by
                simp [parseJavaEntityAux, hc, hh, hf, hm, ht]
              have hcs : columnsSpec (l :: rest) = (cn, t) :: columnsSpec rest := by
                simp [columnsSpec, hc, hh, hf, hm, ht]
              rw [hstep] at h
              obtain ⟨ha, hb⟩ := ih _ _ _ _ h
              refine ⟨by rw [hlc]; exact ha, ?_⟩
              rw [hcs]
              simpa [List.append_assoc] using hb
          | none =>
            have hstep : parseJavaEntityAux (l :: rest) (tn0, cols0) =
                parseJavaEntityAux rest
                  ((match tableSearch l with | some n => some n | none => tn0), cols0) := by
              simp [parseJavaEntityAux, hc, hh, hf, hm]
            have hcs : columnsSpec (l :: rest) = columnsSpec rest := by
              simp [columnsSpec, hc, hh, hf, hm]
            rw [hstep] at h
            obtain ⟨ha, hb⟩ := ih _ _ _ _ h
            exact ⟨by rw [hlc]; exact ha, by rw [hcs]; exact hb⟩

/-- The per-column loop of the create-table generator appends exactly one
rendered line per column, in order. -/
lemma create_fold (cols : List (String × String)) :
    ∀ init : List String,
      cols.foldl (fun acc p => acc ++ [colLine p]) init = init ++ cols.map colLine := by
  induction cols with
  | nil => intro init; simp
  | cons c t ih => intro init; simp [ih]

lemma intercalate_singleton (a : String) : String.intercalate "\n" [a] = a := by
  simp [String.intercalate, String.intercalate.go]

/-- Closed form of the create-table generator. -/
lemma create_table_query_eq (tn : Option String) (cols : List (String × String)) :
    generate_create_table_query tn cols =
      (String.intercalate "\n"
          (("<createTable tableName=\"" ++ pyStrOpt tn ++ "\">") ::
            (cols.map colLine ++ ["</createTable>"])),
        "<dropTable tableName=\"" ++ pyStrOpt tn ++ "\"/>") := by
  simp [generate_create_table_query, create_fold, intercalate_singleton]

/-! ### Claim theorems -/

/-- Claim C1 (code bug): the claim says parse_java_entity never raises
and that a column annotation on the file's last line is silently
dropped.  The code instead raises an IndexError there, because the
getter-method check reads lines[i + 1] without the bound guard that
protects the field check: on a two-line file whose last line is a column
annotation the scanner fails with the IndexError message, and main's
generic handler prints it as an error line instead of generating
output. -/
theorem claim_C1_scanner_raises_on_last_line_column :
    parse_java_entity ["@Table(name = \"employee\")", "@Column(name = \"id\")"] =
      Except.error "list index out of range" ∧
    runMain ⟨"Employee.java", none, none, none⟩
        ["@Table(name = \"employee\")", "@Column(name = \"id\")"] =
      MainOutcome.errorMsg "Error: list index out of range" :=
  ⟨rfl, rfl⟩

/-- Claim C2 (counterexample): the output path is not the input path with
only the trailing occurrence of the .java suffix replaced.  On the input
a.java.java, str.replace rewrites both occurrences, while replacing only
the trailing occurrence would give a.java_liquibase_query.xml. -/
theorem claim_C2_counterexample :
    outputPath "a.java.java" = "a_liquibase_query.xml_liquibase_query.xml" ∧
    "a_liquibase_query.xml_liquibase_query.xml" ≠ "a.java_liquibase_query.xml" :=
  ⟨rfl, by decide⟩

/-- Claim C2 (amended): the output path equals the input path with every
occurrence of .java replaced by the fixed suffix; in particular, when
.java occurs in the input path only as the trailing suffix, the output
is the input with that trailing suffix replaced. -/
theorem claim_C2_output_path (s : String)
    (hocc : ∀ i, i < s.data.length →
      ¬ List.isPrefixOf ".java".data ((s.data ++ ".java".data).drop i) = true) :
    outputPath (s ++ ".java") = s ++ "_liquibase_query.xml" := by
  obtain ⟨ls⟩ := s
  have key := pyReplaceFuel_append ".java".data "_liquibase_query.xml".data (by decide) ls
    ((ls ++ ".java".data).length) (le_refl _) hocc
  show String.mk (pyReplaceFuel ".java".data "_liquibase_query.xml".data
      ((ls ++ ".java".data).length) (ls ++ ".java".data)) =
    String.mk (ls ++ "_liquibase_query.xml".data)
  exact congrArg String.mk key

/-- Witness for claim C2 at a concrete path with a single trailing
occurrence of the suffix. -/
theorem claim_C2_output_path_witness :
    outputPath ("Employee" ++ ".java") = "Employee" ++ "_liquibase_query.xml" :=
  claim_C2_output_path "Employee" (by decide)

/-- Claim C4: generate_delete_column_query drops the column in the
forward fragment and re-adds it with type VARCHAR(255) in the rollback,
for every table name and column name; the rollback coincides with an
add-column fragment for the column's original type exactly when that
type maps to the VARCHAR(255) default, making the original type
irrelevant to the rollback text. -/
theorem claim_C4_delete_column_rollback (tn : Option String) (cn origType : String) :
    generate_delete_column_query tn cn =
      ("<dropColumn tableName=\"" ++ pyStrOpt tn ++ "\" columnName=\"" ++ cn ++ "\"/>",
       "<addColumn tableName=\"" ++ pyStrOpt tn ++ "\">\n    <column name=\"" ++ cn ++
         "\" type=\"VARCHAR(255)\"/>\n</addColumn>") ∧
    (map_java_type_to_db_type origType = "VARCHAR(255)" →
      (generate_delete_column_query tn cn).2 = (generate_add_column_query tn cn origType).1) ∧
    ((generate_delete_column_query tn cn).2 = (generate_add_column_query tn cn origType).1 →
      map_java_type_to_db_type origType = "VARCHAR(255)") := by
  refine ⟨rfl, ?_, ?_⟩
  · intro h
    apply String.ext
    simp only [generate_delete_column_query, generate_add_column_query, h,
      String.data_append, List.append_assoc]
    repeat' congr 1
  · intro h
    simp only [generate_delete_column_query, generate_add_column_query] at h
    have hd := congrArg String.data h
    simp only [String.data_append, List.append_assoc] at hd
    have e1 := List.append_cancel_left hd
    have e2 := List.append_cancel_left e1
    have e3 := List.append_cancel_left e2
    have e4 := List.append_cancel_left e3
    rcases map_java_type_cases origType with hv | hv | hv | hv | hv | hv
    · exact hv
    all_goals rw [hv] at e4
    all_goals exact absurd e4 (by decide)

/-- Witness for claim C4: for a type that maps to the default, the delete
rollback is exactly the add-column forward fragment. -/
theorem claim_C4_delete_column_rollback_witness :
    (generate_delete_column_query (some "employee") "age").2 =
      (generate_add_column_query (some "employee") "age" "String").1 :=
  (claim_C4_delete_column_rollback (some "employee") "age" "String").2.1 rfl

/-- Claim C5: the type mapping is total and case-sensitive: every string
outside the nine known keys maps to VARCHAR(255), long maps to BIGINT,
Boolean maps to BOOLEAN, and the lowercase spelling string is not a
known key, so it maps to the default. -/
theorem claim_C5_type_mapping_total :
    (∀ s : String,
        s ∉ ["String", "int", "Integer", "long", "Long", "boolean", "Boolean", "Date",
          "BigDecimal"] →
        map_java_type_to_db_type s = "VARCHAR(255)") ∧
    map_java_type_to_db_type "long" = "BIGINT" ∧
    map_java_type_to_db_type "Boolean" = "BOOLEAN" ∧
    map_java_type_to_db_type "string" = "VARCHAR(255)" := by
  refine ⟨?_, rfl, rfl, rfl⟩
  intro s hs
  simp only [List.mem_cons, List.not_mem_nil, or_false, not_or] at hs
  obtain ⟨h1, h2, h3, h4, h5, h6, h7, h8, h9⟩ := hs
  simp [map_java_type_to_db_type, h1, h2, h3, h4, h5, h6, h7, h8, h9]

/-- Witness for claim C5 at the unknown key UUID. -/
theorem claim_C5_type_mapping_total_witness :
    map_java_type_to_db_type "UUID" = "VARCHAR(255)" :=
  claim_C5_type_mapping_total.1 "UUID" (by decide)

/-- Claim C9: the add and delete generators are exact textual inverses:
the rollback of add-column equals the forward fragment of delete-column
for every column type, and the rollback of delete-column equals the
forward fragment of add-column for any type that maps to
VARCHAR(255). -/
theorem claim_C9_add_delete_textual_inverses (tn : Option String) (cn : String) :
    (∀ ct : String,
      (generate_add_column_query tn cn ct).2 = (generate_delete_column_query tn cn).1) ∧
    (∀ ct : String, map_java_type_to_db_type ct = "VARCHAR(255)" →
      (generate_delete_column_query tn cn).2 = (generate_add_column_query tn cn ct).1) := by
  refine ⟨fun ct => rfl, fun ct h => ?_⟩
  apply String.ext
  simp only [generate_delete_column_query, generate_add_column_query, h,
    String.data_append, List.append_assoc]
  repeat' congr 1

/-- Witness for claim C9 at a type that maps to the default. -/
theorem claim_C9_add_delete_textual_inverses_witness :
    (generate_delete_column_query (some "employee") "email").2 =
      (generate_add_column_query (some "employee") "email" "String").1 :=
  (claim_C9_add_delete_textual_inverses (some "employee") "email").2 "String" rfl

/-- Claim C3 (counterexample): the claim says the create-table
precondition rejects only an absent table name or an empty column list.
On a file whose table annotation carries an empty quoted name the
scanner returns the present table name (the empty string) and a
non-empty column list, yet the program prints the parse-failure error
and writes nothing, because the truthiness check also rejects the empty
string. -/
theorem claim_C3_counterexample :
    parse_java_entity ["@Table(name = \"\")", "@Column(name = \"id\")", "private int id;"] =
      Except.ok (some "", [("id", "int")]) ∧
    runMain ⟨"Entity.java", none, none, none⟩
        ["@Table(name = \"\")", "@Column(name = \"id\")", "private int id;"] =
      MainOutcome.errorMsg "Error: Could not parse table name or columns." :=
  ⟨rfl, rfl⟩

/-- Claim C3 (amended): in create-table mode, if the scanned table name
is falsy (absent or the empty string) or the column list is empty, the
program prints the parse-failure error and writes nothing; otherwise it
writes a createTable fragment listing every scanned column with its
mapped type and a rollback that drops the whole table. -/
theorem claim_C3_create_table_mode (args : Args) (lines : List String) (tn : Option String)
    (cols : List (String × String))
    (hp : parse_java_entity lines = Except.ok (tn, cols))
    (hm : chooseMode args = Mode.createTable) :
    ((truthyOptStr tn = false ∨ cols = []) →
      runMain args lines = MainOutcome.errorMsg "Error: Could not parse table name or columns.") ∧
    (truthyOptStr tn = true → cols ≠ [] →
      runMain args lines =
        MainOutcome.written (outputPath args.file)
          (writeDocument
            (String.intercalate "\n"
              (("<createTable tableName=\"" ++ pyStrOpt tn ++ "\">") ::
                (cols.map colLine ++ ["</createTable>"])))
            ("<dropTable tableName=\"" ++ pyStrOpt tn ++ "\"/>"))) := by
  have hrun : runMain args lines =
      if truthyOptStr tn = false ∨ cols = [] then
        MainOutcome.errorMsg "Error: Could not parse table name or columns."
      else
        MainOutcome.written (outputPath args.file)
          (writeDocument (generate_create_table_query tn cols).1
            (generate_create_table_query tn cols).2) := by
    simp only [runMain, hp, hm]
  constructor
  · intro hor
    rw [hrun, if_pos hor]
  · intro ht hc
    have hneg : ¬ (truthyOptStr tn = false ∨ cols = []) := by
      rintro (hx | hx)
      · rw [ht] at hx
        cases hx
      · exact hc hx
    rw [hrun, if_neg hneg, create_table_query_eq]

/-- Witness for claim C3: a scan with a non-empty table name and one
column generates the create-table document. -/
theorem claim_C3_create_table_mode_witness :
    runMain ⟨"Employee.java", none, none, none⟩
        ["@Table(name = \"employee\")", "@Column(name = \"id\")", "private int id;"] =
      MainOutcome.written (outputPath "Employee.java")
        (writeDocument
          (String.intercalate "\n"
            (("<createTable tableName=\"" ++ pyStrOpt (some "employee") ++ "\">") ::
              ([("id", "int")].map colLine ++ ["</createTable>"])))
          ("<dropTable tableName=\"" ++ pyStrOpt (some "employee") ++ "\"/>")) :=
  (claim_C3_create_table_mode ⟨"Employee.java", none, none, none⟩
      ["@Table(name = \"employee\")", "@Column(name = \"id\")", "private int id;"]
      (some "employee") [("id", "int")] (by rfl) rfl).2 rfl (by simp)

/-- Claim C6 (counterexample): the claim says delete-column wins over
modify-column whenever both are supplied and that create-table runs only
when none of the three directives is supplied.  A supplied delete-column
directive whose value is the empty string is falsy in Python, so the
conditional skips it: with delete and modify both supplied the modify
branch runs, and with only the empty delete supplied the create-table
branch runs. -/
theorem claim_C6_counterexample :
    chooseMode ⟨"App.java", none, some "", some ("note", "String")⟩ =
      Mode.modCol "note" "String" ∧
    chooseMode ⟨"App.java", none, some "", none⟩ = Mode.createTable :=
  ⟨rfl, rfl⟩

/-- Claim C6 (amended): no conflict error exists; the mode is decided by
the first truthy directive in the fixed order add, delete, modify.  An
add-column or modify-column directive is truthy whenever supplied (its
value is a two-element list); a delete-column directive is truthy only
when its value is non-empty.  Create-table runs exactly when add and
modify are absent and delete is absent or empty. -/
theorem claim_C6_directive_precedence (args : Args) :
    (∀ cn ct, args.addColumn = some (cn, ct) → chooseMode args = Mode.addCol cn ct) ∧
    (∀ cn, args.addColumn = none → args.deleteColumn = some cn → cn ≠ "" →
      chooseMode args = Mode.delCol cn) ∧
    (∀ cn ct, args.addColumn = none →
      (args.deleteColumn = none ∨ args.deleteColumn = some "") →
      args.modifyColumn = some (cn, ct) → chooseMode args = Mode.modCol cn ct) ∧
    (chooseMode args = Mode.createTable ↔
      args.addColumn = none ∧ (args.deleteColumn = none ∨ args.deleteColumn = some "") ∧
        args.modifyColumn = none) := by
  obtain ⟨f, ac, dc, mc⟩ := args
  refine ⟨?_, ?_, ?_, ?_⟩
  · intro cn ct h
    subst h
    simp [chooseMode]
  · intro cn h1 h2 h3
    subst h1
    subst h2
    simp [chooseMode, h3]
  · intro cn ct h1 hor h3
    subst h1
    subst h3
    rcases hor with h | h
    · subst h
      simp [chooseMode]
    · subst h
      simp [chooseMode]
  · constructor
    · intro h
      cases ac with
      | some p => simp [chooseMode] at h
      | none =>
        cases dc with
        | none =>
          cases mc with
          | some p => simp [chooseMode] at h
          | none => exact ⟨rfl, Or.inl rfl, rfl⟩
        | some cn =>
          by_cases hcn : cn = ""
          · subst hcn
            cases mc with
            | some p => simp [chooseMode] at h
            | none => exact ⟨rfl, Or.inr rfl, rfl⟩
          · simp [chooseMode, hcn] at h
    · rintro ⟨h1, hor, h3⟩
      subst h1
      subst h3
      rcases hor with h | h
      · subst h
        simp [chooseMode]
      · subst h
        simp [chooseMode]

/-- Witness for claim C6: with all three directives supplied, add-column
wins and no conflict error arises. -/
theorem claim_C6_directive_precedence_witness :
    chooseMode ⟨"App.java", some ("email", "String"), some "legacy", some ("age", "int")⟩ =
      Mode.addCol "email" "String" :=
  (claim_C6_directive_precedence
      ⟨"App.java", some ("email", "String"), some "legacy", some ("age", "int")⟩).1
    "email" "String" rfl

/-- Claim C7: in the add, delete and modify modes the generated document
does not depend on the scanned column list: two scans that agree on the
table name but differ arbitrarily in their column lists produce the same
outcome under the same directive arguments. -/
theorem claim_C7_single_column_modes_ignore_scan_columns (args : Args)
    (lines1 lines2 : List String) (tn : Option String)
    (cols1 cols2 : List (String × String))
    (h1 : parse_java_entity lines1 = Except.ok (tn, cols1))
    (h2 : parse_java_entity lines2 = Except.ok (tn, cols2))
    (hm : chooseMode args ≠ Mode.createTable) :
    runMain args lines1 = runMain args lines2 := by
  cases hmode : chooseMode args with
  | addCol cn ct => simp [runMain, h1, h2, hmode]
  | delCol cn => simp [runMain, h1, h2, hmode]
  | modCol cn ct => simp [runMain, h1, h2, hmode]
  | createTable => exact absurd hmode hm

/-- Witness for claim C7: two files with the same table name, one with a
scanned column and one without, give the same delete-mode outcome. -/
theorem claim_C7_single_column_modes_ignore_scan_columns_witness :
    runMain ⟨"Employee.java", none, some "legacy", none⟩
        ["@Table(name = \"employee\")", "@Column(name = \"id\")", "private int id;"] =
      runMain ⟨"Employee.java", none, some "legacy", none⟩ ["@Table(name = \"employee\")"] :=
  claim_C7_single_column_modes_ignore_scan_columns ⟨"Employee.java", none, some "legacy", none⟩
    ["@Table(name = \"employee\")", "@Column(name = \"id\")", "private int id;"]
    ["@Table(name = \"employee\")"] (some "employee") [("id", "int")] []
    (by rfl) (by rfl) (by decide)

/-- Claim C8: on a successful scan the returned table name is the capture
of the last line matching the table pattern (the loop has no early
exit), and the returned column list is the per-line record list in
source order. -/
theorem claim_C8_last_table_match_wins (lines : List String) (tn : Option String)
    (cols : List (String × String))
    (h : parse_java_entity lines = Except.ok (tn, cols)) :
    tn = (lines.filterMap tableSearch).getLast? ∧ cols = columnsSpec lines := by
  have h2 := parseAux_characterization lines none [] tn cols h
  have h3 := lastCaptureFrom_getLast lines none
  constructor
  · rw [h2.1, h3]
    cases (lines.filterMap tableSearch).getLast? with
    | none => rfl
    | some n => rfl
  · simpa using h2.2

/-- Witness for claim C8: with two table annotations the second name is
returned, and the one recorded column keeps its source position. -/
theorem claim_C8_last_table_match_wins_witness :
    (some "second" : Option String) =
      (["@Table(name = \"first\")", "@Table(name = \"second\")", "@Column(name = \"flag\")",
        "public Boolean getFlag()"].filterMap tableSearch).getLast? ∧
    [("flag", "Boolean")] =
      columnsSpec ["@Table(name = \"first\")", "@Table(name = \"second\")",
        "@Column(name = \"flag\")", "public Boolean getFlag()"] :=
  claim_C8_last_table_match_wins
    ["@Table(name = \"first\")", "@Table(name = \"second\")", "@Column(name = \"flag\")",
      "public Boolean getFlag()"]
    (some "second") [("flag", "Boolean")] (by rfl)

/-- Claim C10: when a single-column directive is chosen and the scan
found no table annotation, no error is reported: the document is written
and every tableName attribute carries the literal text None, the Python
string conversion of the missing value. -/
theorem claim_C10_none_table_name (args : Args) (lines : List String)
    (cols : List (String × String))
    (hp : parse_java_entity lines = Except.ok (none, cols)) :
    (∀ cn ct, chooseMode args = Mode.addCol cn ct →
      runMain args lines =
        MainOutcome.written (outputPath args.file)
          (writeDocument
            ("<addColumn tableName=\"None\">\n    <column name=\"" ++ cn ++ "\" type=\"" ++
              map_java_type_to_db_type ct ++ "\"/>\n</addColumn>")
            ("<dropColumn tableName=\"None\" columnName=\"" ++ cn ++ "\"/>"))) ∧
    (∀ cn, chooseMode args = Mode.delCol cn →
      runMain args lines =
        MainOutcome.written (outputPath args.file)
          (writeDocument
            ("<dropColumn tableName=\"None\" columnName=\"" ++ cn ++ "\"/>")
            ("<addColumn tableName=\"None\">\n    <column name=\"" ++ cn ++
              "\" type=\"VARCHAR(255)\"/>\n</addColumn>"))) ∧
    (∀ cn ct, chooseMode args = Mode.modCol cn ct →
      runMain args lines =
        MainOutcome.written (outputPath args.file)
          (writeDocument
            ("<modifyDataType tableName=\"None\" columnName=\"" ++ cn ++ "\" newDataType=\"" ++
              map_java_type_to_db_type ct ++ "\"/>")
            ("<modifyDataType tableName=\"None\" columnName=\"" ++ cn ++
              "\" newDataType=\"VARCHAR(255)\"/>"))) := by
  refine ⟨?_, ?_, ?_⟩
  · intro cn ct hm
    simp only [runMain, hp, hm]
    rfl
  · intro cn hm
    simp only [runMain, hp, hm]
    rfl
  · intro cn ct hm
    simp only [runMain, hp, hm]
    rfl

/-- Witness for claim C10: a file with a column annotation but no table
annotation, in delete mode, writes a document whose tableName attributes
read None. -/
theorem claim_C10_none_table_name_witness :
    runMain ⟨"Entity.java", none, some "legacy", none⟩
        ["@Column(name = \"id\")", "private int id;"] =
      MainOutcome.written (outputPath "Entity.java")
        (writeDocument ("<dropColumn tableName=\"None\" columnName=\"" ++ "legacy" ++ "\"/>")
          ("<addColumn tableName=\"None\">\n    <column name=\"" ++ "legacy" ++
            "\" type=\"VARCHAR(255)\"/>\n</addColumn>")) :=
  (claim_C10_none_table_name ⟨"Entity.java", none, some "legacy", none⟩
      ["@Column(name = \"id\")", "private int id;"] [("id", "int")] (by rfl)).2.1
    "legacy" rfl

end LiquibaseGen
